import Mathlib

/-!
# Verification of the BotMind Session Resilience & Admission Control subsystem

Shallow embedding of the admission guard (`src/services/bot-guard.js`, class
`BotGuard`), the session manager (`src/core/whatsapp-client.js`, class
`WhatsAppClient`) and the bot state store (`src/core/state-manager.js`, class
`BotStateManager`) of the BotMind repository, together with proofs of the
spec's testable properties about them.

Modelling conventions:
* JavaScript millisecond timestamps (`Date.now()`) are `Nat`.  Within one
  `checkMessage` call the source calls `Date.now()` several times (once in
  `checkMessage`, again in `checkBlocked` / `blockUser`); these calls are all
  modelled by the single `now` parameter of the call.
* The guard keys its three `Map`s (`userActivity`, `blockedUsers`,
  `suspiciousPatterns`) by the sender id, and a `checkMessage` call reads and
  writes only the entries of the calling sender, so the per-sender projection
  of the three maps is modelled as one `UserState` record.
* JavaScript objects obtained from a `Map` are mutated in place; a mutation
  persists in the map even without a `Map.set` call whenever the record
  already existed in the map.  The embedding reproduces this: updates are kept
  when the record pre-existed (`Option.isSome`) or when the source performs an
  explicit `set`.
* `Math.random()`-driven choice of a cooldown message is modelled by a `rand`
  parameter indexing into the configured message list.
-/

namespace BotGuard

/-- Decision object returned by the guard checks.  The source returns plain
object literals; fields absent from a literal (e.g. `{ allowed: true }`) are
modelled as `none` / `false`. -/
structure Decision where
  allowed : Bool
  reason : Option String
  shouldRespond : Bool
  response : Option String
  deriving Repr, DecidableEq

/-- The `{ allowed: true }` literal returned by the individual checks. -/
def allowedD : Decision := ⟨true, none, false, none⟩

/-- Per-sender activity record of `this.userActivity`
(`userId -> { minuteCount, hourCount, lastMessageTime, warningCount,
minuteReset, hourReset }`). -/
structure Activity where
  minuteCount : Nat
  hourCount : Nat
  lastMessageTime : Nat
  warningCount : Nat
  minuteReset : Nat
  hourReset : Nat
  deriving Repr, DecidableEq

/-- Per-sender block entry of `this.blockedUsers`
(`userId -> { blockedUntil, reason, blockedAt }`). -/
structure BlockInfo where
  blockedUntil : Nat
  reason : String
  blockedAt : Nat
  deriving Repr, DecidableEq

/-- Per-sender pattern record of `this.suspiciousPatterns`.  `lastMessages`
holds `(text, timestamp)` pairs.  The source creates the record without a
`violations` field and `trackSuspiciousActivity` initialises it with
`patterns.violations || []`; the embedding stores it as an initially empty
list. -/
structure Patterns where
  spamCount : Nat
  repeatCount : Nat
  lastMessages : List (String × Nat)
  lastSpamTime : Nat
  violations : List (String × Nat)
  deriving Repr, DecidableEq

/-- The projection of the guard's three maps onto one sender. -/
structure UserState where
  activity : Option Activity
  blocked : Option BlockInfo
  patterns : Option Patterns
  deriving Repr, DecidableEq

/-- The sender state of a sender the guard has never seen. -/
def freshUser : UserState := ⟨none, none, none⟩

/-- Guard configuration, read in the `BotGuard` constructor from
`config.state.default.rateLimit` and `config.bot.owner.number`. -/
structure GuardConfig where
  ownerNumber : String
  rateLimitEnabled : Bool
  maxMessagesPerMinute : Nat
  maxMessagesPerHour : Nat
  cooldownMessages : List String
  deriving Repr, DecidableEq

/-- `isOwner(userId)`: the phone part of the JID (before `@`) and the
configured owner number are stripped of non-digits (`replace(/\D/g, '')`) and
compared; the owner number must be non-empty (`cleanOwnerNumber && ...`). -/
def isOwner (ownerNumber userId : String) : Bool :=
  let phoneNumber := (userId.splitOn "@").headD ""
  let cleanOwnerNumber := String.mk (ownerNumber.data.filter Char.isDigit)
  let cleanUserNumber := String.mk (phoneNumber.data.filter Char.isDigit)
  cleanOwnerNumber ≠ "" && cleanOwnerNumber == cleanUserNumber

/-- `blockUser(userId, durationMs, reason)`. -/
def blockUser (st : UserState) (now durationMs : Nat) (reason : String) :
    UserState :=
  { st with blocked := some ⟨now + durationMs, reason, now⟩ }

/-- `checkBlocked(userId)`: an expired block (`Date.now() > blockedUntil`) is
deleted lazily; an unexpired one rejects with reason `user_blocked` and no
reply. -/
def checkBlocked (now : Nat) (st : UserState) : Decision × UserState :=
  match st.blocked with
  | none => (allowedD, st)
  | some blockInfo =>
    if now > blockInfo.blockedUntil then
      (allowedD, { st with blocked := none })
    else
      (⟨false, some "user_blocked", false, none⟩, st)

/-- `getRandomCooldownMessage()`: a uniformly random element of
`config.state.default.rateLimit.cooldownMessages`; the random draw is the
`rand` parameter. -/
def getRandomCooldownMessage (cfg : GuardConfig) (rand : Nat) : String :=
  cfg.cooldownMessages.getD (rand % cfg.cooldownMessages.length) ""

/-- `checkRateLimit(userId, timestamp)`.  Counters are reset lazily when the
timestamp passed the window's reset time; the minute branch increments the
warning counter, stores the record, and escalates to a 10-minute block at 3
warnings; the hour branch immediately escalates to a 1-hour block (and does
not call `userActivity.set`, so a freshly defaulted record is not stored —
in-place mutations persist only for a pre-existing record).
`resetWindows` is the lazy reset of the two counter windows
(`if (timestamp > activity.minuteReset) ...`, `if (timestamp >
activity.hourReset) ...`), factored out for reuse in the lemmas below. -/
def resetWindows (now : Nat) (a0 : Activity) : Activity :=
  let a1 := if now > a0.minuteReset then
      { a0 with minuteCount := 0, minuteReset := now + 60000 } else a0
  if now > a1.hourReset then
    { a1 with hourCount := 0, hourReset := now + 3600000 } else a1

def checkRateLimit (cfg : GuardConfig) (rand : Nat) (now : Nat)
    (st : UserState) : Decision × UserState :=
  let existed := st.activity.isSome
  let a0 : Activity := st.activity.getD ⟨0, 0, 0, 0, now + 60000, now + 3600000⟩
  let a2 := resetWindows now a0
  if a2.minuteCount ≥ cfg.maxMessagesPerMinute then
    let a3 := { a2 with warningCount := a2.warningCount + 1 }
    let st1 := { st with activity := some a3 }
    let st2 := if a3.warningCount ≥ 3 then
        blockUser st1 now (10 * 60 * 1000) "repeated_rate_limit_violations"
      else st1
    (⟨false, some "rate_limit_minute", true,
      some (getRandomCooldownMessage cfg rand)⟩, st2)
  else if a2.hourCount ≥ cfg.maxMessagesPerHour then
    let st1 := if existed then { st with activity := some a2 } else st
    let st2 := blockUser st1 now (60 * 60 * 1000) "hourly_rate_limit_exceeded"
    (⟨false, some "rate_limit_hour", true,
      some "You've reached the hourly message limit. Please try again later."⟩,
     st2)
  else
    (allowedD, if existed then { st with activity := some a2 } else st)

/-- Default pattern record created lazily by `checkSuspiciousPatterns` /
`trackSuspiciousActivity`. -/
def freshPatterns : Patterns := ⟨0, 0, [], 0, []⟩

/-- `checkSuspiciousPatterns(userId, messageText, timestamp)`. -/
def checkSuspiciousPatterns (now : Nat) (messageText : String)
    (st : UserState) : Decision × UserState :=
  let existed := st.patterns.isSome
  let p0 := st.patterns.getD freshPatterns
  let recentMessages := p0.lastMessages.filter fun msg => now - msg.2 < 300000
  let identicalCount :=
    (recentMessages.filter fun msg => msg.1 = messageText).length
  if identicalCount ≥ 2 then
    let p1 := { p0 with repeatCount := p0.repeatCount + 1 }
    let st1 := if existed then { st with patterns := some p1 } else st
    if p1.repeatCount ≥ 3 then
      (⟨false, some "repeated_messages", true,
        some "Please avoid sending the same message repeatedly. You've been temporarily restricted."⟩,
       blockUser st1 now (30 * 60 * 1000) "repeated_identical_messages")
    else
      (⟨false, some "repeated_messages", true,
        some "I notice you're sending similar messages. Please vary your messages to continue chatting."⟩,
       st1)
  else
    -- rapid-fire frequency check, then the bookkeeping `push`/`slice`/`set`
    let freq : Option (Decision × UserState) × Patterns :=
      match p0.lastMessages.getLast? with
      | none => (none, p0)
      | some lastMessage =>
        let timeDiff := now - lastMessage.2
        if timeDiff < 2000 then
          let p1 := { p0 with spamCount := p0.spamCount + 1 }
          if p1.spamCount ≥ 5 then
            let st1 := if existed then { st with patterns := some p1 } else st
            (some (⟨false, some "rapid_messaging", true,
              some "Please slow down! You're sending messages too quickly. Take a moment to breathe."⟩,
              blockUser st1 now (15 * 60 * 1000) "rapid_fire_messaging"), p1)
          else (none, p1)
        else if timeDiff > 10000 then
          (none, { p0 with spamCount := p0.spamCount - 1 })
        else (none, p0)
    match freq.1 with
    | some rejected => rejected
    | none =>
      let pushed := freq.2.lastMessages ++ [(messageText, now)]
      let bounded := if pushed.length > 10 then
          pushed.drop (pushed.length - 10) else pushed
      (allowedD, { st with patterns := some { freq.2 with lastMessages := bounded } })

/-- `.` of a JavaScript regex (no `s` flag): any character except a line
terminator. -/
def jsDot (c : Char) : Bool := c ≠ '\n' && c ≠ '\r'

/-- `anyTail p l`: does `p` hold of some suffix of `l`?  Used to model the
unanchored search of `RegExp.test`. -/
def anyTail (p : List Char → Bool) : List Char → Bool
  | [] => p []
  | c :: rest => p (c :: rest) || anyTail p rest

/-- Spam pattern `/(.)\1{10,}/`: some character (not a line terminator)
repeated at least 11 times consecutively. -/
def charRunAux : List Char → Char → Nat → Bool
  | [], _, _ => false
  | c :: rest, cur, len =>
    if c = cur && jsDot c then
      if len + 1 ≥ 11 then true else charRunAux rest cur (len + 1)
    else charRunAux rest c 1

def hasCharRun : List Char → Bool
  | [] => false
  | c :: rest => charRunAux rest c 1

/-- Block of `k` copies of `b`. -/
def repBlock (b : List Char) (k : Nat) : List Char := (List.replicate k b).flatten

/-- Spam pattern `/(.{1,3})\1{5,}/` at the head of the list: a block of `L`
non-terminator characters occurring 6 times in a row (the capture plus 5
backreference repetitions). -/
def hasRepeatAt (l : List Char) (L : Nat) : Bool :=
  let b := l.take L
  b.length = L && b.all jsDot && (repBlock b 6).isPrefixOf l

def hasPeriodicRun (l : List Char) : Bool :=
  anyTail (fun t => hasRepeatAt t 1 || hasRepeatAt t 2 || hasRepeatAt t 3) l

/-- The `https?:\/\/` prefix of a URL segment. -/
def stripProto (l : List Char) : Option (List Char) :=
  if ['h','t','t','p',':','/','/'].isPrefixOf l then some (l.drop 7)
  else if ['h','t','t','p','s',':','/','/'].isPrefixOf l then some (l.drop 8)
  else none

mutual
/-- `k` consecutive matches of `https?:\/\/[^\s]+` starting exactly here
(the `(...){3,}` group of the multiple-URL spam pattern).  `fuel` bounds the
recursion; `2 * length + 8` fuel is always sufficient because each pair of
steps consumes at least one character. -/
def urlSegs : Nat → List Char → Nat → Bool
  | _, _, 0 => true
  | 0, _, _ + 1 => false
  | fuel + 1, l, k + 1 =>
    match stripProto l with
    | some (c :: r) => !c.isWhitespace && urlBody fuel r k
    | _ => false

/-- Inside the `[^\s]+` of a URL segment: either the remaining `k` segments
start here, or consume one more non-whitespace character. -/
def urlBody : Nat → List Char → Nat → Bool
  | 0, _, _ => false
  | fuel + 1, l, k =>
    urlSegs fuel l k ||
      match l with
      | c :: r => !c.isWhitespace && urlBody fuel r k
      | [] => false
end

/-- Tail-recursive list length, used only to compute the recursion fuel of
`urlSegs` (equal to `List.length`). -/
def lengthAcc : List Char → Nat → Nat
  | [], acc => acc
  | _ :: r, acc => lengthAcc r (acc + 1)

/-- Spam pattern `/(https?:\/\/[^\s]+){3,}/`.  The `(stripProto t).isSome`
conjunct is redundant (a match must start with the protocol prefix, and
`urlSegs` checks this itself); it only short-circuits the fuel computation at
positions where no match can start. -/
def hasMultipleUrls (l : List Char) : Bool :=
  anyTail (fun t => (stripProto t).isSome && urlSegs (2 * lengthAcc t 0 + 8) t 3) l

/-- Substring test (`String.prototype` search semantics of an unanchored
literal regex alternative). -/
def containsList (l pat : List Char) : Bool :=
  anyTail (fun t => pat.isPrefixOf t) l

/-- Spam pattern `/click here|free money|win now|urgent|limited time/gi`
(the tested text is already lowercased). -/
def hasSpamPhrase (l : List Char) : Bool :=
  containsList l "click here".data || containsList l "free money".data ||
  containsList l "win now".data || containsList l "urgent".data ||
  containsList l "limited time".data

/-- Character class `[!@#$%^&*]`. -/
def isSpecialChar (c : Char) : Bool :=
  c = '!' || c = '@' || c = '#' || c = '$' || c = '%' || c = '^' ||
  c = '&' || c = '*'

/-- Spam pattern `/[!@#$%^&*]{5,}/`: 5 consecutive special characters. -/
def specialRunAux : List Char → Nat → Bool
  | [], _ => false
  | c :: rest, run =>
    if isSpecialChar c then
      if run + 1 ≥ 5 then true else specialRunAux rest (run + 1)
    else specialRunAux rest 0

def hasSpecialRun (l : List Char) : Bool := specialRunAux l 0

/-- JavaScript word character `\w` = `[A-Za-z0-9_]`. -/
def wordChar (c : Char) : Bool :=
  ('a' ≤ c && c ≤ 'z') || ('A' ≤ c && c ≤ 'Z') || ('0' ≤ c && c ≤ '9') ||
  c = '_'

/-- `\b` before a word character: the previous character (if any) is not a
word character. -/
def boundaryBefore : Option Char → Bool
  | none => true
  | some p => !wordChar p

/-- `\b` after a word character: the next character (if any) is not a word
character. -/
def boundaryAfterChk : List Char → Bool
  | [] => true
  | c :: _ => !wordChar c

def matchWordAt (t : List Char) (w : String) : Option (List Char) :=
  if w.data.isPrefixOf t then some (t.drop w.length) else none

/-- Second alternative group `(now|today|urgent)` followed by `\b`. -/
def word2At (t : List Char) : Bool :=
  ["now", "today", "urgent"].any fun w =>
    match matchWordAt t w with
    | some rest => boundaryAfterChk rest
    | none => false

/-- `.{0,20}` gap (non-terminator characters) followed by the second word. -/
def gapScan : List Char → Nat → Bool
  | t, 0 => word2At t
  | t, g + 1 =>
    word2At t ||
      match t with
      | c :: r => jsDot c && gapScan r g
      | [] => false

/-- Commercial spam pattern
`/\b(buy|sell|cheap|discount|offer).{0,20}(now|today|urgent)\b/gi` starting at
the current position, with `prev` the preceding character. -/
def commercialAt (prev : Option Char) (t : List Char) : Bool :=
  boundaryBefore prev &&
    (["buy", "sell", "cheap", "discount", "offer"].any fun w =>
      match matchWordAt t w with
      | some rest => gapScan rest 20
      | none => false)

def commScan : Option Char → List Char → Bool
  | _, [] => false
  | prev, c :: rest => commercialAt prev (c :: rest) || commScan (some c) rest

def hasCommercialSpam (l : List Char) : Bool := commScan none l

/-- The six `spamPatterns` of `checkSpamContent`, tested against the
lowercased text. -/
def anySpamPattern (text : List Char) : Bool :=
  hasCharRun text || hasPeriodicRun text || hasMultipleUrls text ||
  hasSpamPhrase text || hasSpecialRun text || hasCommercialSpam text

/-- `checkSpamContent(messageText, isGroup)`.  Texts shorter than 10
characters skip every heuristic; a spam-pattern match rejects with
`shouldRespond: !isGroup`; a text longer than 2000 characters rejects with
`shouldRespond: true`.  (JavaScript `string.length` counts UTF-16 units; the
embedding counts characters.) -/
def checkSpamContent (messageText : String) (isGroup : Bool) : Decision :=
  if messageText = "" || messageText.length < 10 then allowedD
  else
    let text := messageText.data.map Char.toLower
    if anySpamPattern text then
      ⟨false, some "spam_content", !isGroup,
        some "Your message appears to be spam. Please send meaningful messages."⟩
    else if messageText.length > 2000 then
      ⟨false, some "message_too_long", true,
        some "Your message is quite long. Please break it into smaller parts for better conversation."⟩
    else allowedD

/-- `trackSuspiciousActivity(userId, reason)`: push a violation, drop
violations older than 24 hours, block for 24 hours at 5 violations, store. -/
def trackSuspiciousActivity (now : Nat) (reason : String) (st : UserState) :
    UserState :=
  let p0 := st.patterns.getD freshPatterns
  let violations :=
    (p0.violations ++ [(reason, now)]).filter fun v =>
      now - v.2 < 24 * 60 * 60 * 1000
  let p1 := { p0 with violations := violations }
  let st1 := { st with patterns := some p1 }
  if violations.length ≥ 5 then
    blockUser st1 now (24 * 60 * 60 * 1000) "repeated_violations"
  else st1

/-- `updateUserActivity(userId, messageText, timestamp)` (the text parameter
is unused in the source as well). -/
def updateUserActivity (now : Nat) (st : UserState) : UserState :=
  let a0 : Activity := st.activity.getD ⟨0, 0, 0, 0, now + 60000, now + 3600000⟩
  let a1 := { a0 with minuteCount := a0.minuteCount + 1,
                      hourCount := a0.hourCount + 1,
                      lastMessageTime := now }
  { st with activity := some a1 }

/-- `message.body?.trim() || ''` — JavaScript `String.prototype.trim`,
modelled structurally on the character list (Lean's own `String.trim` is
defined by well-founded recursion and does not reduce in the kernel; the
ASCII whitespace classes agree). -/
def jsTrim (s : String) : String :=
  String.mk
    ((((s.data.dropWhile Char.isWhitespace).reverse.dropWhile
        Char.isWhitespace).reverse))

/-- The happy path of `checkMessage(message, chat, contact)` (the `try`
body).  `body` is `message.body`, trimmed on entry. -/
def checkMessage (cfg : GuardConfig) (userId body : String) (isGroup : Bool)
    (now rand : Nat) (st : UserState) : Decision × UserState :=
  let messageText := jsTrim body
  if isOwner cfg.ownerNumber userId then
    (⟨true, some "owner_bypass", false, none⟩, updateUserActivity now st)
  else
    let blockCheck := checkBlocked now st
    if !blockCheck.1.allowed then blockCheck
    else
      let rateLimitCheck :=
        if cfg.rateLimitEnabled then checkRateLimit cfg rand now blockCheck.2
        else (allowedD, blockCheck.2)
      if !rateLimitCheck.1.allowed then rateLimitCheck
      else
        let patternCheck := checkSuspiciousPatterns now messageText rateLimitCheck.2
        if !patternCheck.1.allowed then patternCheck
        else
          let spamCheck := checkSpamContent messageText isGroup
          if !spamCheck.allowed then
            (spamCheck, trackSuspiciousActivity now "spam_content" patternCheck.2)
          else
            (⟨true, none, false, none⟩, updateUserActivity now patternCheck.2)

/-- The catch-all of `checkMessage`: an abstract error raised by the `try`
body (modelled as the `Except.error` outcome of the evaluation) is swallowed
and the message is allowed through with reason `guard_error`. -/
def guardErrorDecision : Decision := ⟨true, some "guard_error", false, none⟩

def checkMessageGuarded (st : UserState)
    (inner : Except String (Decision × UserState)) : Decision × UserState :=
  match inner with
  | .ok result => result
  | .error _ => (guardErrorDecision, st)

/-- The net effect of one admitted message on the sender's activity record:
when rate limiting is enabled, `checkRateLimit` lazily resets the expired
windows and (for a pre-existing record) stores the reset record, after which
`updateUserActivity` increments both counters; when rate limiting is
disabled, `updateUserActivity` increments the counters without any reset. -/
def admittedActivityUpdate (cfg : GuardConfig) (now : Nat)
    (ao : Option Activity) : Activity :=
  let a0 : Activity := ao.getD ⟨0, 0, 0, 0, now + 60000, now + 3600000⟩
  let a2 := if cfg.rateLimitEnabled then resetWindows now a0 else a0
  { a2 with minuteCount := a2.minuteCount + 1,
            hourCount := a2.hourCount + 1,
            lastMessageTime := now }

/-- The net effect of one admitted message on the sender's pattern record
(the non-rejecting path through `checkSuspiciousPatterns`): burst-counter
bookkeeping, then `push` of `(text, timestamp)` bounded to the last 10
entries. -/
def admittedPatternsUpdate (now : Nat) (text : String) (p0 : Patterns) :
    Patterns :=
  let p1 :=
    match p0.lastMessages.getLast? with
    | none => p0
    | some lastMessage =>
      let timeDiff := now - lastMessage.2
      if timeDiff < 2000 then { p0 with spamCount := p0.spamCount + 1 }
      else if timeDiff > 10000 then { p0 with spamCount := p0.spamCount - 1 }
      else p0
  let pushed := p1.lastMessages ++ [(text, now)]
  { p1 with lastMessages :=
      if pushed.length > 10 then pushed.drop (pushed.length - 10) else pushed }

/-- Run the guard over a chronological list of `(text, timestamp)` messages
from one sender, collecting the decisions. -/
def runGuard (cfg : GuardConfig) (userId : String) (isGroup : Bool)
    (rand : Nat) : UserState → List (String × Nat) → UserState × List Decision
  | st, [] => (st, [])
  | st, (body, t) :: rest =>
    let step := checkMessage cfg userId body isGroup t rand st
    let next := runGuard cfg userId isGroup rand step.2 rest
    (next.1, step.1 :: next.2)

/-- A 2100-character group message built from a unit with no repeated
characters, no short periodic block, no URL, no spam phrase, no special
character and no commercial keyword: it trips only the 2000-character length
cap of `checkSpamContent`. -/
def longText : String := String.mk ((List.replicate 300 "abcdefg".data).flatten)

end BotGuard

namespace WhatsAppClient

/-- The `statusCode` values of `DisconnectReason` from
`@whiskeysockets/baileys` used by `getDisconnectReasonText` and
`handleDisconnection`. -/
def DisconnectReason.badSession : Nat := 500
def DisconnectReason.connectionClosed : Nat := 428
def DisconnectReason.connectionLost : Nat := 408
def DisconnectReason.connectionReplaced : Nat := 440
def DisconnectReason.loggedOut : Nat := 401
def DisconnectReason.restartRequired : Nat := 515
def DisconnectReason.timedOut : Nat := 408
def DisconnectReason.multideviceMismatch : Nat := 411

/-- The reconnection-relevant part of `config.whatsapp`. -/
structure WhatsAppConfig where
  maxReconnectAttempts : Nat
  reconnectIntervalMs : Nat
  deriving Repr, DecidableEq

/-- The connection-lifecycle fields of the `WhatsAppClient` constructor.
`sock` records whether a transport socket object is held (`this.sock !==
null`). -/
structure ClientState where
  sock : Bool
  isConnected : Bool
  isConnecting : Bool
  currentQR : Option String
  qrRetries : Nat
  reconnectAttempts : Nat
  deriving Repr, DecidableEq

/-- The constructor's initial state. -/
def initialClient : ClientState := ⟨false, false, false, none, 0, 0⟩

/-- `handleDisconnection`'s classification
`shouldReconnect = disconnectReason !== DisconnectReason.loggedOut`;
`disconnectReason` is `lastDisconnect?.error?.output?.statusCode` and may be
`undefined` (`none`). -/
def shouldReconnectOf (disconnectReason : Option Nat) : Bool :=
  disconnectReason != some DisconnectReason.loggedOut

/-- State update and reconnection decision of
`handleDisconnection(lastDisconnect)`: clears the connection flags and the
stored QR, then invokes `attemptReconnection()` exactly when the closure
reason is not the logged-out code.  The returned `Bool` records whether
`attemptReconnection` is invoked. -/
def handleDisconnection (st : ClientState) (disconnectReason : Option Nat) :
    ClientState × Bool :=
  let st1 := { st with isConnected := false, isConnecting := false,
                       currentQR := none }
  (st1, shouldReconnectOf disconnectReason)

/-- The back-off delay computed by `attemptReconnection` for its `n`-th
attempt: `Math.min(reconnectIntervalMs * Math.pow(2, n - 1), 30000)`. -/
def reconnectDelay (cfg : WhatsAppConfig) (n : Nat) : Nat :=
  min (cfg.reconnectIntervalMs * 2 ^ (n - 1)) 30000

/-- `attemptReconnection()`: abandons (returns `none`) once
`reconnectAttempts >= maxReconnectAttempts`; otherwise increments the counter
and schedules a single `setTimeout(connect, delay)` with the exponential
back-off delay. -/
def attemptReconnection (cfg : WhatsAppConfig) (st : ClientState) :
    Option (ClientState × Nat) :=
  if st.reconnectAttempts ≥ cfg.maxReconnectAttempts then none
  else
    some ({ st with reconnectAttempts := st.reconnectAttempts + 1 },
          reconnectDelay cfg (st.reconnectAttempts + 1))

/-- The idempotency guard and state effect of `connect()`: a no-op while
`isConnecting` or `isConnected`; otherwise sets `isConnecting` and builds a
new transport socket (`makeWASocket`).  The `Bool` records whether the guard
was passed, i.e. whether a new socket is created. -/
def connect (st : ClientState) : ClientState × Bool :=
  if st.isConnecting then (st, false)
  else if st.isConnected then (st, false)
  else ({ st with isConnecting := true, sock := true }, true)

/-- `disconnect()`: ends and drops the socket and clears both connection
flags.  It does not cancel a pending reconnect timer and sets no shutdown
flag. -/
def disconnect (st : ClientState) : ClientState :=
  { st with sock := false, isConnected := false, isConnecting := false }

end WhatsAppClient

namespace BotStateManager

/-- JSON-like JavaScript values, as far as the bot-state persistence needs
them: booleans, numbers, strings, `null`, arrays and plain objects (ordered
key/value lists, keys unique as in a JavaScript object). -/
inductive JVal where
  | bool : Bool → JVal
  | num : Int → JVal
  | str : String → JVal
  | null : JVal
  | arr : List JVal → JVal
  | obj : List (String × JVal) → JVal

/-- Result of the JavaScript `typeof` operator on a `JVal`
(`typeof null === "object"`, and arrays are objects). -/
inductive JType where
  | tBoolean
  | tNumber
  | tString
  | tObject
  deriving Repr, DecidableEq

def typeofJ : JVal → JType
  | .bool _ => .tBoolean
  | .num _ => .tNumber
  | .str _ => .tString
  | .null => .tObject
  | .arr _ => .tObject
  | .obj _ => .tObject

/-- JavaScript truthiness of a `JVal` (`false`, `0`, `""` and `null` are
falsy; arrays and objects are truthy). -/
def truthy : JVal → Bool
  | .bool b => b
  | .num n => n != 0
  | .str s => s != ""
  | .null => false
  | .arr _ => true
  | .obj _ => true

/-- Property lookup on an object (`loadedState[key]`,
`loadedState.hasOwnProperty(key)` = `isSome`). -/
def lookupJ : List (String × JVal) → String → Option JVal
  | [], _ => none
  | (k, v) :: rest, key => if k = key then some v else lookupJ rest key

/-- Property assignment `obj[key] = v` (replaces in place if the key exists,
otherwise appends, preserving JavaScript insertion order). -/
def setKey : List (String × JVal) → String → JVal → List (String × JVal)
  | [], key, v => [(key, v)]
  | (k, w) :: rest, key, v =>
    if k = key then (k, v) :: rest else (k, w) :: setKey rest key v

/-- `config.state.default` from `config.js`.  The three
`new Date().toISOString()` calls made when the configuration object is built
are the parameter `bootIso`. -/
def defaultState (bootIso : String) : List (String × JVal) :=
  [("isActive", .bool true),
   ("lastToggled", .str bootIso),
   ("toggledBy", .null),
   ("totalMessages", .num 0),
   ("activeSince", .str bootIso),
   ("version", .str "1.0.0"),
   ("settings", .obj
     [("respondToGroups", .bool true),
      ("mentionRequired", .bool true),
      ("maxResponseLength", .num 1000),
      ("typingIndicator", .bool true)]),
   ("statistics", .obj
     [("privateChats", .num 0),
      ("groupChats", .num 0),
      ("commandsProcessed", .num 0),
      ("errorsEncountered", .num 0),
      ("lastRestart", .str bootIso)]),
   ("rateLimit", .obj
     [("enabled", .bool true),
      ("maxMessagesPerMinute", .num 10),
      ("maxMessagesPerHour", .num 100),
      ("cooldownMessages", .arr
        [.str "🐌 Slow down there! Please wait a moment before sending another message.",
         .str "⏳ You're sending messages a bit too quickly. Take a breather!",
         .str "🛑 Hold on! Please wait a few seconds before your next message.",
         .str "💨 Whoa, slow down! Let's chat at a more relaxed pace."]),
      ("lastReset", .str bootIso),
      ("requestCounts", .obj [])])]

/-- Date repair applied to `lastToggled` / `activeSince` by
`validateAndMergeState`:
`if (mergedState[f] && isNaN(new Date(mergedState[f]))) mergedState[f] = new
Date().toISOString()`.  `validDate s` models `!isNaN(new Date(s))` for a
string `s` (JavaScript date parsing is external); for the two date keys the
merged value is always a string, because the default is a string and the
`typeof` guard admits only strings, so the non-string branch is
unreachable. -/
def dateRepair (validDate : String → Bool) (nowIso : String) (v : JVal) : JVal :=
  if truthy v then
    match v with
    | .str s => if validDate s then v else .str nowIso
    | _ => v
  else v

/-- The per-key body of the `Object.keys(defaultState).forEach` loop of
`validateAndMergeState`: a default key present in the loaded object with
matching `typeof` takes the loaded value, otherwise the default value is
kept. -/
def mergeField (loadedState : List (String × JVal)) (key : String)
    (dv : JVal) : JVal :=
  match lookupJ loadedState key with
  | some loadedValue =>
    if typeofJ loadedValue = typeofJ dv then loadedValue else dv
  | none => dv

/-- The per-key body of the `['lastToggled', 'activeSince'].forEach` date
repair loop. -/
def dateFixField (validDate : String → Bool) (nowIso : String) (key : String)
    (v : JVal) : JVal :=
  if key = "lastToggled" || key = "activeSince" then
    dateRepair validDate nowIso v
  else v

/-- `validateAndMergeState(loadedState)` of `src/core/state-manager.js`:
start from a copy of the defaults; for every default key present in the
loaded object with matching `typeof`, take the loaded value (unknown keys are
never copied); then repair the two timestamp fields. -/
def validateAndMergeState (bootIso : String) (loadedState : List (String × JVal))
    (validDate : String → Bool) (nowIso : String) : List (String × JVal) :=
  let mergedState := (defaultState bootIso).map fun kd =>
    (kd.1, mergeField loadedState kd.1 kd.2)
  mergedState.map fun kv => (kv.1, dateFixField validDate nowIso kv.1 kv.2)

/-- The object written to the fallback store by `saveState()`:
`{ ...this.state, lastSaved: <now>, version: config.bot.version }` with
`config.bot.version = '1.0.0'`. -/
def saveStateObj (state : List (String × JVal)) (savedIso : String) :
    List (String × JVal) :=
  setKey (setKey state "lastSaved" (.str savedIso)) "version" (.str "1.0.0")

end BotStateManager

set_option maxRecDepth 100000

namespace BotGuard

theorem longText_hasCharRun : hasCharRun longText.data = false := by decide

theorem longText_hasPeriodicRun : hasPeriodicRun longText.data = false := by
  decide

theorem longText_hasMultipleUrls : hasMultipleUrls longText.data = false := by
  decide

theorem longText_hasSpamPhrase : hasSpamPhrase longText.data = false := by
  decide

theorem longText_hasSpecialRun : hasSpecialRun longText.data = false := by
  decide

theorem longText_hasCommercialSpam : hasCommercialSpam longText.data = false := by
  decide

theorem longText_length : longText.length = 2100 := by
  show ((List.replicate 300 "abcdefg".data).flatten).length = 2100
  rw [List.length_flatten, List.map_replicate, List.sum_replicate]
  norm_num

theorem longText_lower : longText.data.map Char.toLower = longText.data := by
  show ((List.replicate 300 "abcdefg".data).flatten).map Char.toLower =
    (List.replicate 300 "abcdefg".data).flatten
  rw [List.map_flatten, List.map_replicate]
  have h : "abcdefg".data.map Char.toLower = "abcdefg".data := by decide
  rw [h]

/-- Full evaluation of the content heuristics on `longText` in a group chat:
only the 2000-character cap fires, and the rejection carries a reply. -/
theorem checkSpamContent_longText : checkSpamContent longText true =
    ⟨false, some "message_too_long", true,
      some "Your message is quite long. Please break it into smaller parts for better conversation."⟩ := by
  have e0 : decide (longText = "") = false := by
    apply decide_eq_false
    intro h
    have h2 := congrArg String.length h
    rw [longText_length] at h2
    simp at h2
  have e2 : anySpamPattern (List.map Char.toLower longText.data) = false := by
    rw [longText_lower]
    simp only [anySpamPattern, longText_hasCharRun, longText_hasPeriodicRun,
      longText_hasMultipleUrls, longText_hasSpamPhrase, longText_hasSpecialRun,
      longText_hasCommercialSpam, Bool.or_self]
  simp only [checkSpamContent, e0, e2, longText_length]
  norm_num

/-- C5 (counterexample): `longText` is a message rejected by the content
heuristics (its length exceeds the 2000-character hard cap) that arrived in a
group chat, yet the Decision carries a public reply (`shouldRespond = true`
with a response text), contradicting the claim that content-heuristic
rejections are silent in groups. -/
theorem long_message_group_reply_counterexample :
    (checkSpamContent longText true).allowed = false ∧
    (checkSpamContent longText true).reason = some "message_too_long" ∧
    (checkSpamContent longText true).shouldRespond = true ∧
    (checkSpamContent longText true).response ≠ none := by
  rw [checkSpamContent_longText]
  refine ⟨rfl, rfl, rfl, ?_⟩
  simp

/-- C5 (amended): a spam-pattern rejection (`reason = "spam_content"`) is
silent in a group chat and carries a reply in a direct chat
(`shouldRespond = !isGroup`); the 2000-character length-cap rejection
(`reason = "message_too_long"`) carries a reply in group and direct chats
alike. -/
theorem content_rejection_reply_policy (text : String) (isGroup : Bool) :
    ((checkSpamContent text isGroup).reason = some "spam_content" →
      (checkSpamContent text isGroup).shouldRespond = !isGroup) ∧
    ((checkSpamContent text isGroup).reason = some "message_too_long" →
      (checkSpamContent text isGroup).shouldRespond = true) := by
  unfold checkSpamContent
  split_ifs <;>
    first
      | (simp [allowedD]; done)
      | (cases hs : anySpamPattern (List.map Char.toLower text.data) <;>
          simp [hs, allowedD])

/-- Witness for `content_rejection_reply_policy`: a spam-pattern match in a
group chat is silent; the long message in a group chat is answered. -/
theorem content_rejection_reply_policy_witness :
    (checkSpamContent "click here please" true).shouldRespond = false ∧
    (checkSpamContent longText true).shouldRespond = true := by
  constructor
  · have h := (content_rejection_reply_policy "click here please" true).1
      (by decide)
    simpa using h
  · exact (content_rejection_reply_policy longText true).2
      (by rw [checkSpamContent_longText])

end BotGuard

namespace WhatsAppClient

/-- C6: on a close event with the logged-out reason code,
`attemptReconnection` is never invoked; on a close event with the
connection-lost reason code a reconnection attempt is made, scheduling a
timer (when the retry budget is not exhausted) whose exponential back-off
delay strictly increases across consecutive attempts until it reaches the
30-second cap, and never exceeds the cap. -/
theorem close_event_reconnect_policy (st : ClientState) (cfg : WhatsAppConfig)
    (n : Nat) (hbase : 0 < cfg.reconnectIntervalMs) (hn : 1 ≤ n)
    (hcap : reconnectDelay cfg n < 30000) :
    (handleDisconnection st (some DisconnectReason.loggedOut)).2 = false ∧
    (handleDisconnection st (some DisconnectReason.connectionLost)).2 = true ∧
    (st.reconnectAttempts < cfg.maxReconnectAttempts →
      attemptReconnection cfg st =
        some ({ st with reconnectAttempts := st.reconnectAttempts + 1 },
              reconnectDelay cfg (st.reconnectAttempts + 1))) ∧
    reconnectDelay cfg n < reconnectDelay cfg (n + 1) ∧
    reconnectDelay cfg n ≤ 30000 := by
  refine ⟨rfl, rfl, ?_, ?_, ?_⟩
  · intro h
    unfold attemptReconnection
    rw [if_neg (by omega)]
  · have hlt : cfg.reconnectIntervalMs * 2 ^ (n - 1) < 30000 := by
      by_contra hge
      push_neg at hge
      unfold reconnectDelay at hcap
      omega
    have heq : reconnectDelay cfg n = cfg.reconnectIntervalMs * 2 ^ (n - 1) := by
      unfold reconnectDelay
      omega
    have hpow : 2 ^ (n - 1) < 2 ^ (n + 1 - 1) := by
      apply Nat.pow_lt_pow_right (by norm_num)
      omega
    have hmul : cfg.reconnectIntervalMs * 2 ^ (n - 1) <
        cfg.reconnectIntervalMs * 2 ^ (n + 1 - 1) :=
      (Nat.mul_lt_mul_left hbase).mpr hpow
    rw [heq]
    unfold reconnectDelay
    omega
  · unfold reconnectDelay
    omega

/-- Witness for `close_event_reconnect_policy` at the repository
configuration (`reconnectIntervalMs = 5000`, `maxReconnectAttempts = 5`) and
the first attempt. -/
theorem close_event_reconnect_policy_witness :
    (handleDisconnection initialClient (some DisconnectReason.loggedOut)).2 = false ∧
    (handleDisconnection initialClient (some DisconnectReason.connectionLost)).2 = true ∧
    (initialClient.reconnectAttempts < (5 : Nat) →
      attemptReconnection ⟨5, 5000⟩ initialClient =
        some ({ initialClient with reconnectAttempts := initialClient.reconnectAttempts + 1 },
              reconnectDelay ⟨5, 5000⟩ (initialClient.reconnectAttempts + 1))) ∧
    reconnectDelay ⟨5, 5000⟩ 1 < reconnectDelay ⟨5, 5000⟩ (1 + 1) ∧
    reconnectDelay ⟨5, 5000⟩ 1 ≤ 30000 := by
  have h := close_event_reconnect_policy initialClient ⟨5, 5000⟩ 1
    (by decide) (by decide) (by decide)
  exact ⟨h.1, h.2.1, fun hlt => (h.2.2.1 hlt), h.2.2.2.1, h.2.2.2.2⟩

/-- C7: evaluation of the code at the failing input.  After a successful
manual `disconnect()` (socket dropped, both connection flags cleared), a
previously scheduled reconnect timer that fires and calls `connect()` passes
the idempotency guard and creates a new transport socket: nothing cancels the
pending reconnection, contradicting the requirement that a manual disconnect
prevent it. -/
theorem reconnect_timer_fires_after_disconnect (st : ClientState) :
    (connect (disconnect st)).2 = true ∧
    (connect (disconnect st)).1.isConnecting = true ∧
    (connect (disconnect st)).1.sock = true := by
  simp [connect, disconnect]

end WhatsAppClient

namespace BotGuard

/-- C8: when the admission evaluation raises an unexpected exception
(modelled as the `Except.error` outcome of the `try` body), `checkMessage`
fails open: the returned Decision has `allowed = true` with reason
`guard_error` and no reply, the sender state is left unchanged, and a
successful evaluation is returned as-is.  (The accompanying
`logger.error` call is outside the embedding.) -/
theorem guard_error_fails_open (st : UserState) (e : String)
    (r : Decision × UserState) :
    checkMessageGuarded st (Except.error e) = (guardErrorDecision, st) ∧
    guardErrorDecision.allowed = true ∧
    guardErrorDecision.shouldRespond = false ∧
    checkMessageGuarded st (Except.ok r) = r :=
  ⟨rfl, rfl, rfl, rfl⟩

/-- C2: a sender whose warning counter stands at 2 (two prior minute-limit
rejections) and who again exceeds the minute limit inside the current minute
window receives the third minute-limit rejection; this escalates to a
10-minute block (`blockedUntil = now + 600000`), and every subsequent message
from that sender up to 10 minutes later (`t2 ≤ now + 600000`) is rejected
with reason `user_blocked`. -/
theorem user_blocked_after_three_minute_warnings
    (cfg : GuardConfig) (uid body : String) (isGroup : Bool) (now rand : Nat)
    (st : UserState) (a : Activity) (body2 : String) (g2 : Bool)
    (t2 rand2 : Nat)
    (hOwner : isOwner cfg.ownerNumber uid = false)
    (hEn : cfg.rateLimitEnabled = true)
    (hBlocked : st.blocked = none)
    (hAct : st.activity = some a)
    (hWin : ¬ now > a.minuteReset)
    (hCount : a.minuteCount ≥ cfg.maxMessagesPerMinute)
    (hWarn : a.warningCount = 2)
    (ht2 : t2 ≤ now + 10 * 60 * 1000) :
    (checkMessage cfg uid body isGroup now rand st).1.allowed = false ∧
    (checkMessage cfg uid body isGroup now rand st).1.reason =
      some "rate_limit_minute" ∧
    (checkMessage cfg uid body isGroup now rand st).2.blocked =
      some ⟨now + 10 * 60 * 1000, "repeated_rate_limit_violations", now⟩ ∧
    (checkMessage cfg uid body2 g2 t2 rand2
        (checkMessage cfg uid body isGroup now rand st).2).1.allowed = false ∧
    (checkMessage cfg uid body2 g2 t2 rand2
        (checkMessage cfg uid body isGroup now rand st).2).1.reason =
      some "user_blocked" := by
  have hnot2 : ¬ t2 > now + 10 * 60 * 1000 := by omega
  by_cases hh : now > a.hourReset <;>
    simp [checkMessage, checkBlocked, checkRateLimit, resetWindows, blockUser,
      allowedD, hOwner, hEn, hBlocked, hAct, hWin, hh, hCount, hWarn, hnot2]

/-- Witness for `user_blocked_after_three_minute_warnings`. -/
theorem user_blocked_after_three_minute_warnings_witness :
    (checkMessage ⟨"", true, 10, 100, ["cool"]⟩ "7@s.whatsapp.net" "hey" false
        5000 0 ⟨some ⟨10, 10, 4000, 2, 60000, 3600000⟩, none, none⟩).1.allowed
      = false ∧
    (checkMessage ⟨"", true, 10, 100, ["cool"]⟩ "7@s.whatsapp.net" "hey" false
        5000 0 ⟨some ⟨10, 10, 4000, 2, 60000, 3600000⟩, none, none⟩).1.reason
      = some "rate_limit_minute" ∧
    (checkMessage ⟨"", true, 10, 100, ["cool"]⟩ "7@s.whatsapp.net" "hey" false
        5000 0 ⟨some ⟨10, 10, 4000, 2, 60000, 3600000⟩, none, none⟩).2.blocked
      = some ⟨5000 + 10 * 60 * 1000, "repeated_rate_limit_violations", 5000⟩ ∧
    (checkMessage ⟨"", true, 10, 100, ["cool"]⟩ "7@s.whatsapp.net" "yo" false
        300000 1 (checkMessage ⟨"", true, 10, 100, ["cool"]⟩ "7@s.whatsapp.net"
          "hey" false 5000 0
          ⟨some ⟨10, 10, 4000, 2, 60000, 3600000⟩, none, none⟩).2).1.allowed
      = false ∧
    (checkMessage ⟨"", true, 10, 100, ["cool"]⟩ "7@s.whatsapp.net" "yo" false
        300000 1 (checkMessage ⟨"", true, 10, 100, ["cool"]⟩ "7@s.whatsapp.net"
          "hey" false 5000 0
          ⟨some ⟨10, 10, 4000, 2, 60000, 3600000⟩, none, none⟩).2).1.reason
      = some "user_blocked" :=
  user_blocked_after_three_minute_warnings ⟨"", true, 10, 100, ["cool"]⟩
    "7@s.whatsapp.net" "hey" false 5000 0
    ⟨some ⟨10, 10, 4000, 2, 60000, 3600000⟩, none, none⟩
    ⟨10, 10, 4000, 2, 60000, 3600000⟩ "yo" false 300000 1
    (by decide) (by decide) (by decide) (by decide) (by decide) (by decide)
    (by decide) (by decide)

/-- C3: a non-owner, non-blocked sender inside the current windows whose
hourly counter has reached the hourly limit (while the minute counter is
still under the minute limit, so the minute branch does not fire first) is
rejected with the fixed hourly message and is immediately blocked for 1 hour
(`blockedUntil = now + 3600000`); the stored activity record — in particular
the warning counter — is unchanged, i.e. there is no warning grace, unlike
the minute limit which blocks only at 3 warnings. -/
theorem hour_limit_immediate_block
    (cfg : GuardConfig) (uid body : String) (isGroup : Bool) (now rand : Nat)
    (st : UserState) (a : Activity)
    (hOwner : isOwner cfg.ownerNumber uid = false)
    (hEn : cfg.rateLimitEnabled = true)
    (hBlocked : st.blocked = none)
    (hAct : st.activity = some a)
    (hMinWin : ¬ now > a.minuteReset)
    (hHourWin : ¬ now > a.hourReset)
    (hMin : a.minuteCount < cfg.maxMessagesPerMinute)
    (hHour : a.hourCount ≥ cfg.maxMessagesPerHour) :
    (checkMessage cfg uid body isGroup now rand st).1 =
      ⟨false, some "rate_limit_hour", true,
        some "You've reached the hourly message limit. Please try again later."⟩ ∧
    (checkMessage cfg uid body isGroup now rand st).2.blocked =
      some ⟨now + 60 * 60 * 1000, "hourly_rate_limit_exceeded", now⟩ ∧
    (checkMessage cfg uid body isGroup now rand st).2.activity = some a := by
  have hMin' : ¬ a.minuteCount ≥ cfg.maxMessagesPerMinute := by omega
  simp [checkMessage, checkBlocked, checkRateLimit, resetWindows, blockUser,
    allowedD, hOwner, hEn, hBlocked, hAct, hMinWin, hHourWin, hMin', hHour]

/-- Witness for `hour_limit_immediate_block`. -/
theorem hour_limit_immediate_block_witness :
    (checkMessage ⟨"", true, 10, 100, ["cool"]⟩ "7@s.whatsapp.net" "hey" false
        5000 0 ⟨some ⟨3, 100, 4000, 0, 60000, 3600000⟩, none, none⟩).1 =
      ⟨false, some "rate_limit_hour", true,
        some "You've reached the hourly message limit. Please try again later."⟩ ∧
    (checkMessage ⟨"", true, 10, 100, ["cool"]⟩ "7@s.whatsapp.net" "hey" false
        5000 0 ⟨some ⟨3, 100, 4000, 0, 60000, 3600000⟩, none, none⟩).2.blocked =
      some ⟨5000 + 60 * 60 * 1000, "hourly_rate_limit_exceeded", 5000⟩ ∧
    (checkMessage ⟨"", true, 10, 100, ["cool"]⟩ "7@s.whatsapp.net" "hey" false
        5000 0 ⟨some ⟨3, 100, 4000, 0, 60000, 3600000⟩, none, none⟩).2.activity =
      some ⟨3, 100, 4000, 0, 60000, 3600000⟩ :=
  hour_limit_immediate_block ⟨"", true, 10, 100, ["cool"]⟩ "7@s.whatsapp.net"
    "hey" false 5000 0 ⟨some ⟨3, 100, 4000, 0, 60000, 3600000⟩, none, none⟩
    ⟨3, 100, 4000, 0, 60000, 3600000⟩
    (by decide) (by decide) (by decide) (by decide) (by decide) (by decide)
    (by decide) (by decide)

theorem checkBlocked_none (now : Nat) (st : UserState) (h : st.blocked = none) :
    checkBlocked now st = (allowedD, st) := by
  unfold checkBlocked
  rw [h]

theorem checkRateLimit_cases (cfg : GuardConfig) (rand now : Nat)
    (st : UserState) :
    (checkRateLimit cfg rand now st).1.allowed = false ∨
    checkRateLimit cfg rand now st =
      (allowedD,
       if st.activity.isSome then
         { st with activity := some (resetWindows now
             (st.activity.getD ⟨0, 0, 0, 0, now + 60000, now + 3600000⟩)) }
       else st) := by
  unfold checkRateLimit
  dsimp only
  split_ifs <;> simp [allowedD]

theorem checkSuspiciousPatterns_cases (now : Nat) (text : String)
    (st : UserState) :
    (checkSuspiciousPatterns now text st).1.allowed = false ∨
    checkSuspiciousPatterns now text st =
      (allowedD,
       { st with patterns := some (admittedPatternsUpdate now text
           (st.patterns.getD freshPatterns)) }) := by
  unfold checkSuspiciousPatterns admittedPatternsUpdate
  dsimp only
  split
  · split <;> simp
  · rcases hgl : (st.patterns.getD freshPatterns).lastMessages.getLast? with _ | last
    · simp only [hgl]
      right
      trivial
    · simp only [hgl]
      split_ifs <;> simp



theorem checkMessage_admitted (cfg : GuardConfig) (uid body : String)
    (isGroup : Bool) (now rand : Nat) (st : UserState)
    (hOwner : isOwner cfg.ownerNumber uid = false)
    (hB : st.blocked = none)
    (hAdm : (checkMessage cfg uid body isGroup now rand st).1.allowed = true) :
    checkMessage cfg uid body isGroup now rand st =
      (⟨true, none, false, none⟩,
       ⟨some (admittedActivityUpdate cfg now st.activity), none,
        some (admittedPatternsUpdate now (jsTrim body)
          (st.patterns.getD freshPatterns))⟩) := by
  unfold checkMessage at hAdm ⊢
  dsimp only at hAdm ⊢
  simp only [hOwner, Bool.false_eq_true, if_false] at hAdm ⊢
  rw [checkBlocked_none now st hB] at hAdm ⊢
  dsimp only at hAdm ⊢
  simp only [allowedD, Bool.not_true, Bool.false_eq_true, if_false] at hAdm ⊢
  rcases hEn : cfg.rateLimitEnabled with _ | _
  · -- rate limiting disabled
    simp only [hEn, Bool.false_eq_true, if_false] at hAdm ⊢
    rcases checkSuspiciousPatterns_cases now (jsTrim body) st with hp | hp
    · simp [hp] at hAdm
    · rw [hp] at hAdm ⊢
      dsimp only at hAdm ⊢
      simp only [allowedD, Bool.not_true, Bool.false_eq_true, if_false] at hAdm ⊢
      rcases hsc : (checkSpamContent (jsTrim body) isGroup).allowed with _ | _
      · simp [hsc] at hAdm
      · simp only [hsc, Bool.not_true, Bool.false_eq_true, if_false]
        unfold updateUserActivity admittedActivityUpdate
        simp only [hEn, Bool.false_eq_true, if_false]
        simp [hB]
  · -- rate limiting enabled
    simp only [hEn, if_true] at hAdm ⊢
    rcases checkRateLimit_cases cfg rand now st with hr | hr
    · simp [hr] at hAdm
    · rw [hr] at hAdm ⊢
      dsimp only at hAdm ⊢
      simp only [allowedD, Bool.not_true, Bool.false_eq_true, if_false] at hAdm ⊢
      set strate : UserState :=
        if st.activity.isSome then
          { st with activity := some (resetWindows now
              (st.activity.getD ⟨0, 0, 0, 0, now + 60000, now + 3600000⟩)) }
        else st with hstrate
      rcases checkSuspiciousPatterns_cases now (jsTrim body) strate with hp | hp
      · simp [hp] at hAdm
      · rw [hp] at hAdm ⊢
        dsimp only at hAdm ⊢
        simp only [allowedD, Bool.not_true, Bool.false_eq_true, if_false] at hAdm ⊢
        rcases hsc : (checkSpamContent (jsTrim body) isGroup).allowed with _ | _
        · simp [hsc] at hAdm
        · simp only [hsc, Bool.not_true, Bool.false_eq_true, if_false]
          unfold updateUserActivity admittedActivityUpdate
          simp only [hEn, if_true]
          rcases hact : st.activity with _ | a
          · have h1 : ¬ now > now + 60000 := by omega
            have h2 : ¬ now > now + 3600000 := by omega
            simp [hstrate, hact, resetWindows, h1, h2, hB]
          · simp [hstrate, hact, hB]



theorem runGuard_nil (cfg : GuardConfig) (uid : String) (g : Bool) (rand : Nat)
    (st : UserState) : runGuard cfg uid g rand st [] = (st, []) := rfl

theorem runGuard_cons (cfg : GuardConfig) (uid : String) (g : Bool)
    (rand : Nat) (st : UserState) (body : String) (t : Nat)
    (rest : List (String × Nat)) :
    runGuard cfg uid g rand st ((body, t) :: rest) =
      ((runGuard cfg uid g rand (checkMessage cfg uid body g t rand st).2 rest).1,
       (checkMessage cfg uid body g t rand st).1 ::
         (runGuard cfg uid g rand (checkMessage cfg uid body g t rand st).2 rest).2) :=
  rfl

theorem runGuard_admitted_invariant (cfg : GuardConfig) (uid : String)
    (isGroup : Bool) (rand : Nat)
    (hEn : cfg.rateLimitEnabled = true)
    (hOwner : isOwner cfg.ownerNumber uid = false) :
    ∀ (msgs : List (String × Nat)) (st : UserState) (a : Activity),
      st.blocked = none → st.activity = some a →
      (∀ m ∈ msgs, ¬ m.2 > a.minuteReset ∧ ¬ m.2 > a.hourReset) →
      (∀ d ∈ (runGuard cfg uid isGroup rand st msgs).2, d.allowed = true) →
      (runGuard cfg uid isGroup rand st msgs).1.blocked = none ∧
      ∃ lm, (runGuard cfg uid isGroup rand st msgs).1.activity =
        some ⟨a.minuteCount + msgs.length, a.hourCount + msgs.length, lm,
              a.warningCount, a.minuteReset, a.hourReset⟩
  | [] => by
    intro st a hb ha _ _
    rw [runGuard_nil]
    refine ⟨hb, a.lastMessageTime, ?_⟩
    rw [ha]
    cases a
    simp
  | (body, t) :: tl => by
    intro st a hb ha hbound hall
    have hadm1 : (checkMessage cfg uid body isGroup t rand st).1.allowed = true := by
      apply hall
      rw [runGuard_cons]
      simp
    have hstep := checkMessage_admitted cfg uid body isGroup t rand st hOwner hb hadm1
    have hbound_hd := hbound (body, t) (by simp)
    have hupd : admittedActivityUpdate cfg t st.activity =
        ⟨a.minuteCount + 1, a.hourCount + 1, t, a.warningCount,
         a.minuteReset, a.hourReset⟩ := by
      rw [ha]
      unfold admittedActivityUpdate resetWindows
      simp [hEn, hbound_hd.1, hbound_hd.2]
    have hrec := runGuard_admitted_invariant cfg uid isGroup rand hEn hOwner tl
      (checkMessage cfg uid body isGroup t rand st).2
      ⟨a.minuteCount + 1, a.hourCount + 1, t, a.warningCount,
       a.minuteReset, a.hourReset⟩
      (by rw [hstep]) (by rw [hstep]; simpa using hupd)
      (by intro m hm; exact hbound m (by simp [hm]))
      (by
        intro d hd
        apply hall
        rw [runGuard_cons]
        simp [hd])
    obtain ⟨hbl, lm, hact⟩ := hrec
    rw [runGuard_cons]
    refine ⟨hbl, lm, ?_⟩
    rw [hact]
    simp [Activity.mk.injEq]
    omega



/-- C1: for a non-owner sender with rate limiting enabled, starting with no
activity record and no block entry: after `N` admitted messages whose
timestamps all lie inside the minute window opened by the first message
(`t <= t_1 + 60000`), where `N` equals the configured per-minute limit, the
next message inside the same window is rejected with reason
`rate_limit_minute`. -/
theorem rate_limit_minute_after_n_admitted
    (cfg : GuardConfig) (uid : String) (isGroup : Bool) (rand : Nat)
    (msgs : List (String × Nat)) (body' : String) (t' : Nat) (st₀ : UserState)
    (hOwner : isOwner cfg.ownerNumber uid = false)
    (hEn : cfg.rateLimitEnabled = true)
    (hA : st₀.activity = none) (hB : st₀.blocked = none)
    (hN : msgs.length = cfg.maxMessagesPerMinute)
    (hWin : ∀ m ∈ msgs, m.2 ≤ (msgs.headD (body', t')).2 + 60000)
    (hWin' : t' ≤ (msgs.headD (body', t')).2 + 60000)
    (hAdm : ∀ d ∈ (runGuard cfg uid isGroup rand st₀ msgs).2, d.allowed = true) :
    (checkMessage cfg uid body' isGroup t' rand
        (runGuard cfg uid isGroup rand st₀ msgs).1).1.allowed = false ∧
    (checkMessage cfg uid body' isGroup t' rand
        (runGuard cfg uid isGroup rand st₀ msgs).1).1.reason =
      some "rate_limit_minute" := by
  rcases msgs with _ | ⟨⟨b₁, t₁⟩, rest⟩
  · rw [runGuard_nil]
    have hmax : cfg.maxMessagesPerMinute = 0 := by simpa using hN.symm
    have h1 : ¬ t' > t' + 60000 := by omega
    have h2 : ¬ t' > t' + 3600000 := by omega
    simp [checkMessage, checkBlocked, checkRateLimit, resetWindows, hOwner,
      hEn, hA, hB, hmax, h1, h2, allowedD]
  · have hadm1 : (checkMessage cfg uid b₁ isGroup t₁ rand st₀).1.allowed = true := by
      apply hAdm
      rw [runGuard_cons]
      simp
    have hstep := checkMessage_admitted cfg uid b₁ isGroup t₁ rand st₀ hOwner hB hadm1
    have ht₁m : ¬ t₁ > t₁ + 60000 := by omega
    have ht₁h : ¬ t₁ > t₁ + 3600000 := by omega
    have hA1 : admittedActivityUpdate cfg t₁ st₀.activity =
        ⟨1, 1, t₁, 0, t₁ + 60000, t₁ + 3600000⟩ := by
      rw [hA]
      unfold admittedActivityUpdate resetWindows
      simp [hEn, ht₁m, ht₁h]
    have hinv := runGuard_admitted_invariant cfg uid isGroup rand hEn hOwner rest
      (checkMessage cfg uid b₁ isGroup t₁ rand st₀).2
      ⟨1, 1, t₁, 0, t₁ + 60000, t₁ + 3600000⟩
      (by rw [hstep]) (by rw [hstep]; simpa using hA1)
      (by
        intro m hm
        have h3 : m.2 ≤ t₁ + 60000 := hWin m (by simp [hm])
        refine ⟨?_, ?_⟩ <;> simp <;> omega)
      (by
        intro d hd
        apply hAdm
        rw [runGuard_cons]
        simp [hd])
    obtain ⟨hbl, lm, hact⟩ := hinv
    dsimp only at hact
    have hrg : (runGuard cfg uid isGroup rand st₀ ((b₁, t₁) :: rest)).1 =
        (runGuard cfg uid isGroup rand
          (checkMessage cfg uid b₁ isGroup t₁ rand st₀).2 rest).1 := by
      rw [runGuard_cons]
    rw [hrg]
    have hN' : 1 + rest.length = cfg.maxMessagesPerMinute := by
      simpa [Nat.add_comm] using hN
    have hW' : t' ≤ t₁ + 60000 := hWin'
    have hm1 : ¬ t' > t₁ + 60000 := by omega
    have hm2 : ¬ t' > t₁ + 3600000 := by omega
    have hge : 1 + rest.length ≥ cfg.maxMessagesPerMinute := by omega
    set stN : UserState := (runGuard cfg uid isGroup rand
      (checkMessage cfg uid b₁ isGroup t₁ rand st₀).2 rest).1 with hstN
    simp [checkMessage, checkBlocked, checkRateLimit, resetWindows, hOwner,
      hEn, hbl, hact, hm1, hm2, hge, allowedD]



theorem admittedActivityUpdate_counts_none (cfg : GuardConfig) (now : Nat) :
    (admittedActivityUpdate cfg now none).minuteCount = 1 ∧
    (admittedActivityUpdate cfg now none).hourCount = 1 := by
  unfold admittedActivityUpdate resetWindows
  dsimp only
  split_ifs <;> simp

theorem admittedActivityUpdate_counts_some (cfg : GuardConfig) (now : Nat)
    (a : Activity) :
    (admittedActivityUpdate cfg now (some a)).minuteCount ≤ a.minuteCount + 1 ∧
    (admittedActivityUpdate cfg now (some a)).hourCount ≤ a.hourCount + 1 := by
  unfold admittedActivityUpdate resetWindows
  dsimp only
  split_ifs <;> simp

theorem checkRateLimit_pass (cfg : GuardConfig) (rand now : Nat)
    (st : UserState) (a : Activity) (hAct : st.activity = some a)
    (hm : a.minuteCount < cfg.maxMessagesPerMinute)
    (hh : a.hourCount < cfg.maxMessagesPerHour) :
    (checkRateLimit cfg rand now st).1 = allowedD ∧
    (checkRateLimit cfg rand now st).2.blocked = st.blocked ∧
    (checkRateLimit cfg rand now st).2.patterns = st.patterns := by
  unfold checkRateLimit resetWindows
  rw [hAct]
  simp only [Option.getD_some]
  split_ifs <;>
    first
      | (refine ⟨rfl, ?_, ?_⟩ <;> simp)
      | (exfalso; simp_all <;> omega)

theorem checkSuspiciousPatterns_reject_second (now : Nat) (text : String)
    (st : UserState) (P : Patterns)
    (hp : st.patterns = some P) (hrep : P.repeatCount = 0)
    (hcount : 2 ≤ ((P.lastMessages.filter
        (fun m => now - m.2 < 300000)).filter (fun m => m.1 = text)).length) :
    checkSuspiciousPatterns now text st =
      (⟨false, some "repeated_messages", true,
        some "I notice you're sending similar messages. Please vary your messages to continue chatting."⟩,
       { st with patterns := some { P with repeatCount := 1 } }) := by
  unfold checkSuspiciousPatterns
  rw [hp]
  simp only [Option.getD_some, Option.isSome_some]
  rw [if_pos (by simpa using hcount)]
  rw [hrep]
  norm_num



/-- C4: a non-owner, non-blocked fresh sender within the rate limits
(limits above 2) who sends the exact same message text 3 times within a
5-minute window (`t_3 < t_1 + 300000`), the first two occurrences having been
admitted, gets `allowed = false` on the 3rd occurrence (with reason
`repeated_messages` and the first-level warning reply). -/
theorem third_identical_message_rejected
    (cfg : GuardConfig) (uid body : String) (isGroup : Bool) (rand : Nat)
    (t₁ t₂ t₃ : Nat) (st₀ : UserState)
    (hOwner : isOwner cfg.ownerNumber uid = false)
    (hA : st₀.activity = none) (hB : st₀.blocked = none)
    (hP : st₀.patterns = none)
    (hm : 2 < cfg.maxMessagesPerMinute) (hh : 2 < cfg.maxMessagesPerHour)
    (h12 : t₁ ≤ t₂) (h23 : t₂ ≤ t₃) (hwin : t₃ < t₁ + 300000)
    (hadm1 : (checkMessage cfg uid body isGroup t₁ rand st₀).1.allowed = true)
    (hadm2 : (checkMessage cfg uid body isGroup t₂ rand
        (checkMessage cfg uid body isGroup t₁ rand st₀).2).1.allowed = true) :
    (checkMessage cfg uid body isGroup t₃ rand
        (checkMessage cfg uid body isGroup t₂ rand
          (checkMessage cfg uid body isGroup t₁ rand st₀).2).2).1 =
      ⟨false, some "repeated_messages", true,
        some "I notice you're sending similar messages. Please vary your messages to continue chatting."⟩ := by
  have hstep1 := checkMessage_admitted cfg uid body isGroup t₁ rand st₀ hOwner hB hadm1
  have hP1 : admittedPatternsUpdate t₁ (jsTrim body) (st₀.patterns.getD freshPatterns) =
      ⟨0, 0, [(jsTrim body, t₁)], 0, []⟩ := by
    rw [hP]
    unfold admittedPatternsUpdate freshPatterns
    simp
  have hst1 : (checkMessage cfg uid body isGroup t₁ rand st₀).2 =
      ⟨some (admittedActivityUpdate cfg t₁ st₀.activity), none,
       some ⟨0, 0, [(jsTrim body, t₁)], 0, []⟩⟩ := by
    rw [hstep1]
    dsimp only
    rw [hP1]
  have hstep2 := checkMessage_admitted cfg uid body isGroup t₂ rand
    (checkMessage cfg uid body isGroup t₁ rand st₀).2 hOwner
    (by rw [hst1]) hadm2
  rw [hst1] at hstep2
  set sc : Nat := if t₂ - t₁ < 2000 then 1 else 0 with hscdef
  have hP2 : admittedPatternsUpdate t₂ (jsTrim body)
      ((⟨some (admittedActivityUpdate cfg t₁ st₀.activity), none,
        some ⟨0, 0, [(jsTrim body, t₁)], 0, []⟩⟩ : UserState).patterns.getD freshPatterns) =
      ⟨sc, 0, [(jsTrim body, t₁), (jsTrim body, t₂)], 0, []⟩ := by
    rw [hscdef]
    unfold admittedPatternsUpdate
    simp only [Option.getD_some, List.getLast?_singleton]
    split_ifs <;> simp
  have hst2 : (checkMessage cfg uid body isGroup t₂ rand
      (checkMessage cfg uid body isGroup t₁ rand st₀).2).2 =
      ⟨some (admittedActivityUpdate cfg t₂
          (some (admittedActivityUpdate cfg t₁ st₀.activity))), none,
       some ⟨sc, 0, [(jsTrim body, t₁), (jsTrim body, t₂)], 0, []⟩⟩ := by
    rw [hst1, hstep2]
    dsimp only
    rw [hP2]
  -- counter bounds for the third rate-limit check
  have hc1 : (admittedActivityUpdate cfg t₁ st₀.activity).minuteCount = 1 ∧
      (admittedActivityUpdate cfg t₁ st₀.activity).hourCount = 1 := by
    rw [hA]
    exact admittedActivityUpdate_counts_none cfg t₁
  have hc2 := admittedActivityUpdate_counts_some cfg t₂
    (admittedActivityUpdate cfg t₁ st₀.activity)
  -- the third message
  rw [hst2]
  unfold checkMessage
  dsimp only
  simp only [hOwner, Bool.false_eq_true, if_false]
  rw [checkBlocked_none t₃ _ rfl]
  dsimp only
  simp only [allowedD, Bool.not_true, Bool.false_eq_true, if_false]
  have hf1 : t₃ - t₁ < 300000 := by omega
  have hf2 : t₃ - t₂ < 300000 := by omega
  have hcount : 2 ≤ ((([(jsTrim body, t₁), (jsTrim body, t₂)] :
        List (String × Nat)).filter
      (fun m => t₃ - m.2 < 300000)).filter (fun m => m.1 = jsTrim body)).length := by
    simp [hf1, hf2]
  rcases hEn : cfg.rateLimitEnabled with _ | _
  · simp only [hEn, Bool.false_eq_true, if_false]
    have hrej := checkSuspiciousPatterns_reject_second t₃ (jsTrim body)
      ⟨some (admittedActivityUpdate cfg t₂
          (some (admittedActivityUpdate cfg t₁ st₀.activity))), none,
       some ⟨sc, 0, [(jsTrim body, t₁), (jsTrim body, t₂)], 0, []⟩⟩
      ⟨sc, 0, [(jsTrim body, t₁), (jsTrim body, t₂)], 0, []⟩ rfl rfl hcount
    rw [hrej]
    simp
  · simp only [hEn, if_true]
    obtain ⟨hr1, hr2, hr3⟩ := checkRateLimit_pass cfg rand t₃
      ⟨some (admittedActivityUpdate cfg t₂
          (some (admittedActivityUpdate cfg t₁ st₀.activity))), none,
       some ⟨sc, 0, [(jsTrim body, t₁), (jsTrim body, t₂)], 0, []⟩⟩
      (admittedActivityUpdate cfg t₂
          (some (admittedActivityUpdate cfg t₁ st₀.activity)))
      rfl (by omega) (by omega)
    rw [hr1]
    simp only [allowedD, Bool.not_true, Bool.false_eq_true, if_false]
    have hrej := checkSuspiciousPatterns_reject_second t₃ (jsTrim body)
      (checkRateLimit cfg rand t₃
        ⟨some (admittedActivityUpdate cfg t₂
            (some (admittedActivityUpdate cfg t₁ st₀.activity))), none,
         some ⟨sc, 0, [(jsTrim body, t₁), (jsTrim body, t₂)], 0, []⟩⟩).2
      ⟨sc, 0, [(jsTrim body, t₁), (jsTrim body, t₂)], 0, []⟩
      (by rw [hr3]) rfl hcount
    rw [hrej]
    simp

/-- Witness for `rate_limit_minute_after_n_admitted` with a per-minute limit
of 2 and three messages inside one minute window. -/
theorem rate_limit_minute_after_n_admitted_witness :
    (checkMessage ⟨"", true, 2, 100, ["a", "b"]⟩ "123@s.whatsapp.net" "ef"
        false 9000 0
        (runGuard ⟨"", true, 2, 100, ["a", "b"]⟩ "123@s.whatsapp.net" false 0
          freshUser [("ab", 1000), ("cd", 5000)]).1).1.allowed = false ∧
    (checkMessage ⟨"", true, 2, 100, ["a", "b"]⟩ "123@s.whatsapp.net" "ef"
        false 9000 0
        (runGuard ⟨"", true, 2, 100, ["a", "b"]⟩ "123@s.whatsapp.net" false 0
          freshUser [("ab", 1000), ("cd", 5000)]).1).1.reason =
      some "rate_limit_minute" :=
  rate_limit_minute_after_n_admitted ⟨"", true, 2, 100, ["a", "b"]⟩
    "123@s.whatsapp.net" false 0 [("ab", 1000), ("cd", 5000)] "ef" 9000
    freshUser (by decide) (by decide) (by decide) (by decide) (by decide)
    (by decide) (by decide) (by decide)

/-- Witness for `third_identical_message_rejected`: "hello" sent three times
10 seconds apart. -/
theorem third_identical_message_rejected_witness :
    (checkMessage ⟨"", true, 10, 100, ["a"]⟩ "9@s.whatsapp.net" "hello" false
        20000 0
        (checkMessage ⟨"", true, 10, 100, ["a"]⟩ "9@s.whatsapp.net" "hello"
          false 10000 0
          (checkMessage ⟨"", true, 10, 100, ["a"]⟩ "9@s.whatsapp.net" "hello"
            false 0 0 freshUser).2).2).1 =
      ⟨false, some "repeated_messages", true,
        some "I notice you're sending similar messages. Please vary your messages to continue chatting."⟩ :=
  third_identical_message_rejected ⟨"", true, 10, 100, ["a"]⟩
    "9@s.whatsapp.net" "hello" false 0 0 10000 20000 freshUser
    (by decide) (by decide) (by decide) (by decide) (by decide) (by decide)
    (by decide) (by decide) (by decide) (by decide) (by decide)


theorem checkBlocked_reason_ne (now : Nat) (st : UserState) :
    (checkBlocked now st).1.reason ≠ some "spam_content" ∧
    (checkBlocked now st).1.reason ≠ some "message_too_long" := by
  unfold checkBlocked
  rcases st.blocked with _ | b
  · simp [allowedD]
  · dsimp only
    split <;> simp [allowedD]

theorem checkRateLimit_reason_ne (cfg : GuardConfig) (rand now : Nat)
    (st : UserState) :
    (checkRateLimit cfg rand now st).1.reason ≠ some "spam_content" ∧
    (checkRateLimit cfg rand now st).1.reason ≠ some "message_too_long" := by
  unfold checkRateLimit
  dsimp only
  split_ifs <;> simp [allowedD]

theorem checkSuspiciousPatterns_reason_ne (now : Nat) (text : String)
    (st : UserState) :
    (checkSuspiciousPatterns now text st).1.reason ≠ some "spam_content" ∧
    (checkSuspiciousPatterns now text st).1.reason ≠ some "message_too_long" := by
  unfold checkSuspiciousPatterns
  dsimp only
  split
  · split <;> simp
  · split
    · next r heq =>
        split at heq
        · simp at heq
        · split_ifs at heq <;> simp at heq <;> simp [← heq]
    · simp [allowedD]

/-- C10: a message whose trimmed text is shorter than 10 characters passes
the content heuristics unconditionally (`checkSpamContent` returns the plain
`{ allowed: true }`), so `checkMessage` never rejects such a message for
`spam_content` or `message_too_long`; only the owner bypass, block,
rate-limit and suspicious-pattern checks can decide it. -/
theorem short_text_bypasses_content_heuristics (cfg : GuardConfig)
    (uid body : String) (isGroup : Bool) (now rand : Nat) (st : UserState)
    (h : (jsTrim body).length < 10) :
    checkSpamContent (jsTrim body) isGroup = allowedD ∧
    (checkMessage cfg uid body isGroup now rand st).1.reason ≠
      some "spam_content" ∧
    (checkMessage cfg uid body isGroup now rand st).1.reason ≠
      some "message_too_long" := by
  have hspam : checkSpamContent (jsTrim body) isGroup = allowedD := by
    unfold checkSpamContent
    rw [if_pos]
    simp [h]
  refine ⟨hspam, ?_⟩
  unfold checkMessage
  dsimp only
  split
  · simp
  · split
    · exact checkBlocked_reason_ne now st
    · split
      · -- rate limiting enabled
        split
        · exact checkRateLimit_reason_ne cfg rand now _
        · split
          · exact checkSuspiciousPatterns_reason_ne now _ _
          · split
            · next hko =>
                rw [hspam] at hko
                simp [allowedD] at hko
            · simp
      · -- rate limiting disabled
        split
        · next hfalse => simp [allowedD] at hfalse
        · split
          · exact checkSuspiciousPatterns_reason_ne now _ _
          · split
            · next hko =>
                rw [hspam] at hko
                simp [allowedD] at hko
            · simp

/-- Witness for `short_text_bypasses_content_heuristics`. -/
theorem short_text_bypasses_content_heuristics_witness :
    checkSpamContent (jsTrim "hi") false = allowedD ∧
    (checkMessage ⟨"", true, 10, 100, ["cool"]⟩ "7@s.whatsapp.net" "hi" false
        5000 0 freshUser).1.reason ≠ some "spam_content" ∧
    (checkMessage ⟨"", true, 10, 100, ["cool"]⟩ "7@s.whatsapp.net" "hi" false
        5000 0 freshUser).1.reason ≠ some "message_too_long" :=
  short_text_bypasses_content_heuristics ⟨"", true, 10, 100, ["cool"]⟩
    "7@s.whatsapp.net" "hi" false 5000 0 freshUser (by decide)

end BotGuard

namespace BotStateManager

theorem lookupJ_setKey_same (l : List (String × JVal)) (k : String) (v : JVal) :
    lookupJ (setKey l k v) k = some v := by
  induction l with
  | nil => simp [setKey, lookupJ]
  | cons hd tl ih =>
    obtain ⟨k0, v0⟩ := hd
    by_cases h : k0 = k <;> simp [setKey, lookupJ, h, ih]

theorem lookupJ_setKey_other (l : List (String × JVal)) (k k' : String)
    (v : JVal) (h : k' ≠ k) :
    lookupJ (setKey l k v) k' = lookupJ l k' := by
  induction l with
  | nil => simp [setKey, lookupJ, Ne.symm h]
  | cons hd tl ih =>
    obtain ⟨k0, v0⟩ := hd
    by_cases h0 : k0 = k
    · subst h0
      simp [setKey, lookupJ, Ne.symm h]
    · by_cases h1 : k0 = k' <;> simp [setKey, lookupJ, h0, h1, h, ih]



theorem lookupJ_map_fun (F : String → JVal → JVal) (l : List (String × JVal))
    (k : String) (dv : JVal) (hl : lookupJ l k = some dv) :
    lookupJ (l.map fun kd => (kd.1, F kd.1 kd.2)) k = some (F k dv) := by
  induction l with
  | nil => simp [lookupJ] at hl
  | cons hd tl ih =>
    obtain ⟨k0, v0⟩ := hd
    by_cases h : k0 = k
    · subst h
      simp [lookupJ] at hl
      subst hl
      simp [lookupJ]
    · simp [lookupJ, h] at hl
      simp [lookupJ, h, ih hl]

theorem lookupJ_map_fun_none (F : String → JVal → JVal)
    (l : List (String × JVal)) (k : String) (hl : lookupJ l k = none) :
    lookupJ (l.map fun kd => (kd.1, F kd.1 kd.2)) k = none := by
  induction l with
  | nil => simp [lookupJ]
  | cons hd tl ih =>
    obtain ⟨k0, v0⟩ := hd
    by_cases h : k0 = k
    · subst h
      simp [lookupJ] at hl
    · simp [lookupJ, h] at hl
      simp [lookupJ, h, ih hl]

theorem lookupJ_validate (bootIso : String) (loaded : List (String × JVal))
    (validDate : String → Bool) (nowIso : String) (k : String) (dv : JVal)
    (hmem : lookupJ (defaultState bootIso) k = some dv) :
    lookupJ (validateAndMergeState bootIso loaded validDate nowIso) k =
      some (dateFixField validDate nowIso k (mergeField loaded k dv)) := by
  unfold validateAndMergeState
  exact lookupJ_map_fun _ _ _ _ (lookupJ_map_fun _ _ _ _ hmem)

theorem lookupJ_validate_none (bootIso : String) (loaded : List (String × JVal))
    (validDate : String → Bool) (nowIso : String) (k : String)
    (hmem : lookupJ (defaultState bootIso) k = none) :
    lookupJ (validateAndMergeState bootIso loaded validDate nowIso) k = none := by
  unfold validateAndMergeState
  exact lookupJ_map_fun_none _ _ _ (lookupJ_map_fun_none _ _ _ hmem)



/-- C9 (amended): writing Bot State to the fallback store
(`saveStateObj`) and revalidating it on load reproduces the state on every
schema field, for any state whose fields match the default schema's `typeof`
and whose timestamp fields are valid (or empty) — the `lastSaved` metadata
and the overwritten `version` are the only fields touched by the save.
Validation proceeds field-by-field: keys unknown to the default schema are
dropped, a type-mismatched (non-timestamp) field falls back to the default
value, and a malformed NON-EMPTY timestamp string is replaced with the
current time (an empty timestamp string is kept, see the counterexample). -/
theorem state_round_trip_and_validation
    (bootIso nowIso savedIso : String) (validDate : String → Bool)
    (s loaded : List (String × JVal)) (kU kM : String) (vM dvM : JVal)
    (aT : String)
    (h1 : ∃ b, lookupJ s "isActive" = some (.bool b))
    (h2 : ∃ a, lookupJ s "lastToggled" = some (.str a) ∧
      (a = "" ∨ validDate a = true))
    (h3 : ∃ v, lookupJ s "toggledBy" = some v ∧ typeofJ v = .tObject)
    (h4 : ∃ n, lookupJ s "totalMessages" = some (.num n))
    (h5 : ∃ a, lookupJ s "activeSince" = some (.str a) ∧
      (a = "" ∨ validDate a = true))
    (h6 : lookupJ s "version" = some (.str "1.0.0"))
    (h7 : ∃ v, lookupJ s "settings" = some v ∧ typeofJ v = .tObject)
    (h8 : ∃ v, lookupJ s "statistics" = some v ∧ typeofJ v = .tObject)
    (h9 : ∃ v, lookupJ s "rateLimit" = some v ∧ typeofJ v = .tObject)
    (hU : lookupJ (defaultState bootIso) kU = none)
    (hM : lookupJ (defaultState bootIso) kM = some dvM)
    (hMl : lookupJ loaded kM = some vM)
    (hMt : ¬ typeofJ vM = typeofJ dvM)
    (hMd1 : kM ≠ "lastToggled") (hMd2 : kM ≠ "activeSince")
    (hT : lookupJ loaded "lastToggled" = some (.str aT))
    (hTne : aT ≠ "") (hTv : validDate aT = false) :
    (lookupJ (validateAndMergeState bootIso (saveStateObj s savedIso)
        validDate nowIso) "isActive" = lookupJ s "isActive" ∧
     lookupJ (validateAndMergeState bootIso (saveStateObj s savedIso)
        validDate nowIso) "lastToggled" = lookupJ s "lastToggled" ∧
     lookupJ (validateAndMergeState bootIso (saveStateObj s savedIso)
        validDate nowIso) "toggledBy" = lookupJ s "toggledBy" ∧
     lookupJ (validateAndMergeState bootIso (saveStateObj s savedIso)
        validDate nowIso) "totalMessages" = lookupJ s "totalMessages" ∧
     lookupJ (validateAndMergeState bootIso (saveStateObj s savedIso)
        validDate nowIso) "activeSince" = lookupJ s "activeSince" ∧
     lookupJ (validateAndMergeState bootIso (saveStateObj s savedIso)
        validDate nowIso) "version" = lookupJ s "version" ∧
     lookupJ (validateAndMergeState bootIso (saveStateObj s savedIso)
        validDate nowIso) "settings" = lookupJ s "settings" ∧
     lookupJ (validateAndMergeState bootIso (saveStateObj s savedIso)
        validDate nowIso) "statistics" = lookupJ s "statistics" ∧
     lookupJ (validateAndMergeState bootIso (saveStateObj s savedIso)
        validDate nowIso) "rateLimit" = lookupJ s "rateLimit") ∧
    lookupJ (validateAndMergeState bootIso loaded validDate nowIso) kU =
      none ∧
    lookupJ (validateAndMergeState bootIso loaded validDate nowIso) kM =
      some dvM ∧
    lookupJ (validateAndMergeState bootIso loaded validDate nowIso)
      "lastToggled" = some (.str nowIso) := by
  obtain ⟨b, hb⟩ := h1
  obtain ⟨a2, ha2, hva2⟩ := h2
  obtain ⟨v3, hv3, ht3⟩ := h3
  obtain ⟨n4, hn4⟩ := h4
  obtain ⟨a5, ha5, hva5⟩ := h5
  obtain ⟨v7, hv7, ht7⟩ := h7
  obtain ⟨v8, hv8, ht8⟩ := h8
  obtain ⟨v9, hv9, ht9⟩ := h9
  have hsave : ∀ key : String, key ≠ "version" → key ≠ "lastSaved" →
      lookupJ (saveStateObj s savedIso) key = lookupJ s key := by
    intro key hkv hks
    unfold saveStateObj
    rw [lookupJ_setKey_other _ _ _ _ hkv, lookupJ_setKey_other _ _ _ _ hks]
  refine ⟨⟨?_, ?_, ?_, ?_, ?_, ?_, ?_, ?_, ?_⟩, ?_, ?_, ?_⟩
  · rw [lookupJ_validate _ _ _ _ _ _ (rfl :
      lookupJ (defaultState bootIso) "isActive" = some (.bool true))]
    rw [hb]
    simp [mergeField, dateFixField, typeofJ, hsave "isActive" (by decide) (by decide), hb]
  · rw [lookupJ_validate _ _ _ _ _ _ (rfl :
      lookupJ (defaultState bootIso) "lastToggled" = some (.str bootIso))]
    rw [ha2]
    simp only [mergeField, hsave "lastToggled" (by decide) (by decide), ha2]
    rcases hva2 with h | h <;>
      simp [dateFixField, dateRepair, truthy, typeofJ, h]
  · rw [lookupJ_validate _ _ _ _ _ _ (rfl :
      lookupJ (defaultState bootIso) "toggledBy" = some .null)]
    rw [hv3]
    simp only [mergeField, hsave "toggledBy" (by decide) (by decide), hv3]
    rw [if_pos (show typeofJ v3 = typeofJ JVal.null from ht3)]
    simp [dateFixField]
  · rw [lookupJ_validate _ _ _ _ _ _ (rfl :
      lookupJ (defaultState bootIso) "totalMessages" = some (.num 0))]
    rw [hn4]
    simp [mergeField, dateFixField, typeofJ, hsave "totalMessages" (by decide) (by decide), hn4]
  · rw [lookupJ_validate _ _ _ _ _ _ (rfl :
      lookupJ (defaultState bootIso) "activeSince" = some (.str bootIso))]
    rw [ha5]
    simp only [mergeField, hsave "activeSince" (by decide) (by decide), ha5]
    rcases hva5 with h | h <;>
      simp [dateFixField, dateRepair, truthy, typeofJ, h]
  · rw [lookupJ_validate _ _ _ _ _ _ (rfl :
      lookupJ (defaultState bootIso) "version" = some (.str "1.0.0"))]
    rw [h6]
    simp [mergeField, dateFixField, saveStateObj, lookupJ_setKey_same, h6]
  · rw [lookupJ_validate _ _ _ _ _ _ (rfl :
      lookupJ (defaultState bootIso) "settings" = some (.obj
        [("respondToGroups", .bool true), ("mentionRequired", .bool true),
         ("maxResponseLength", .num 1000), ("typingIndicator", .bool true)]))]
    rw [hv7]
    simp only [mergeField, hsave "settings" (by decide) (by decide), hv7]
    rw [if_pos (show typeofJ v7 = typeofJ (JVal.obj
      [("respondToGroups", .bool true), ("mentionRequired", .bool true),
       ("maxResponseLength", .num 1000), ("typingIndicator", .bool true)])
      from ht7)]
    simp [dateFixField]
  · rw [lookupJ_validate _ _ _ _ _ _ (rfl :
      lookupJ (defaultState bootIso) "statistics" = some (.obj
        [("privateChats", .num 0), ("groupChats", .num 0),
         ("commandsProcessed", .num 0), ("errorsEncountered", .num 0),
         ("lastRestart", .str bootIso)]))]
    rw [hv8]
    simp only [mergeField, hsave "statistics" (by decide) (by decide), hv8]
    rw [if_pos (show typeofJ v8 = typeofJ (JVal.obj
      [("privateChats", .num 0), ("groupChats", .num 0),
       ("commandsProcessed", .num 0), ("errorsEncountered", .num 0),
       ("lastRestart", .str bootIso)]) from ht8)]
    simp [dateFixField]
  · rw [lookupJ_validate _ _ _ _ _ _ (rfl :
      lookupJ (defaultState bootIso) "rateLimit" = some (.obj
        [("enabled", .bool true), ("maxMessagesPerMinute", .num 10),
         ("maxMessagesPerHour", .num 100),
         ("cooldownMessages", .arr
           [.str "🐌 Slow down there! Please wait a moment before sending another message.",
            .str "⏳ You're sending messages a bit too quickly. Take a breather!",
            .str "🛑 Hold on! Please wait a few seconds before your next message.",
            .str "💨 Whoa, slow down! Let's chat at a more relaxed pace."]),
         ("lastReset", .str bootIso), ("requestCounts", .obj [])]))]
    rw [hv9]
    simp only [mergeField, hsave "rateLimit" (by decide) (by decide), hv9]
    rw [if_pos (show typeofJ v9 = typeofJ (JVal.obj
      [("enabled", .bool true), ("maxMessagesPerMinute", .num 10),
       ("maxMessagesPerHour", .num 100),
       ("cooldownMessages", .arr
         [.str "🐌 Slow down there! Please wait a moment before sending another message.",
          .str "⏳ You're sending messages a bit too quickly. Take a breather!",
          .str "🛑 Hold on! Please wait a few seconds before your next message.",
          .str "💨 Whoa, slow down! Let's chat at a more relaxed pace."]),
       ("lastReset", .str bootIso), ("requestCounts", .obj [])]) from ht9)]
    simp [dateFixField]
  · exact lookupJ_validate_none _ _ _ _ _ hU
  · rw [lookupJ_validate _ _ _ _ _ _ hM]
    simp [mergeField, hMl, hMt, dateFixField, hMd1, hMd2]
  · rw [lookupJ_validate _ _ _ _ _ _ (rfl :
      lookupJ (defaultState bootIso) "lastToggled" = some (.str bootIso))]
    simp [mergeField, hT, dateFixField, dateRepair, truthy, typeofJ, hTne, hTv]



/-- C9 (counterexample): a loaded state whose `lastToggled` is the empty
string — a malformed timestamp (`isNaN(new Date(''))` is true, here
`validDate "" = false`) — is NOT replaced with the current time: the
truthiness guard `if (mergedState[f] && isNaN(...))` skips the falsy empty
string, so the loaded `""` is kept verbatim instead of becoming `nowIso`. -/
theorem empty_timestamp_kept_counterexample :
    lookupJ (validateAndMergeState "2025-01-01T00:00:00.000Z"
        [("lastToggled", JVal.str "")] (fun s => s != "")
        "2026-10-11T00:00:00.000Z") "lastToggled" = some (JVal.str "") ∧
    ¬ JVal.str "" = JVal.str "2026-10-11T00:00:00.000Z" := by
  refine ⟨rfl, by simp⟩

/-- Witness for `state_round_trip_and_validation` at the default state
itself and a loaded object with a junk key, a type-mismatched `isActive` and
a malformed `lastToggled`. -/
theorem state_round_trip_and_validation_witness :
    (lookupJ (validateAndMergeState "B" (saveStateObj (defaultState "B") "S")
        (fun s => s != "" && s != "bad") "NOW") "isActive" =
      lookupJ (defaultState "B") "isActive" ∧
     lookupJ (validateAndMergeState "B" (saveStateObj (defaultState "B") "S")
        (fun s => s != "" && s != "bad") "NOW") "lastToggled" =
      lookupJ (defaultState "B") "lastToggled" ∧
     lookupJ (validateAndMergeState "B" (saveStateObj (defaultState "B") "S")
        (fun s => s != "" && s != "bad") "NOW") "toggledBy" =
      lookupJ (defaultState "B") "toggledBy" ∧
     lookupJ (validateAndMergeState "B" (saveStateObj (defaultState "B") "S")
        (fun s => s != "" && s != "bad") "NOW") "totalMessages" =
      lookupJ (defaultState "B") "totalMessages" ∧
     lookupJ (validateAndMergeState "B" (saveStateObj (defaultState "B") "S")
        (fun s => s != "" && s != "bad") "NOW") "activeSince" =
      lookupJ (defaultState "B") "activeSince" ∧
     lookupJ (validateAndMergeState "B" (saveStateObj (defaultState "B") "S")
        (fun s => s != "" && s != "bad") "NOW") "version" =
      lookupJ (defaultState "B") "version" ∧
     lookupJ (validateAndMergeState "B" (saveStateObj (defaultState "B") "S")
        (fun s => s != "" && s != "bad") "NOW") "settings" =
      lookupJ (defaultState "B") "settings" ∧
     lookupJ (validateAndMergeState "B" (saveStateObj (defaultState "B") "S")
        (fun s => s != "" && s != "bad") "NOW") "statistics" =
      lookupJ (defaultState "B") "statistics" ∧
     lookupJ (validateAndMergeState "B" (saveStateObj (defaultState "B") "S")
        (fun s => s != "" && s != "bad") "NOW") "rateLimit" =
      lookupJ (defaultState "B") "rateLimit") ∧
    lookupJ (validateAndMergeState "B"
        [("lastToggled", JVal.str "bad"), ("junk", JVal.num 5),
         ("isActive", JVal.num 7)] (fun s => s != "" && s != "bad") "NOW")
      "junk" = none ∧
    lookupJ (validateAndMergeState "B"
        [("lastToggled", JVal.str "bad"), ("junk", JVal.num 5),
         ("isActive", JVal.num 7)] (fun s => s != "" && s != "bad") "NOW")
      "isActive" = some (JVal.bool true) ∧
    lookupJ (validateAndMergeState "B"
        [("lastToggled", JVal.str "bad"), ("junk", JVal.num 5),
         ("isActive", JVal.num 7)] (fun s => s != "" && s != "bad") "NOW")
      "lastToggled" = some (JVal.str "NOW") :=
  state_round_trip_and_validation "B" "NOW" "S"
    (fun s => s != "" && s != "bad") (defaultState "B")
    [("lastToggled", JVal.str "bad"), ("junk", JVal.num 5),
     ("isActive", JVal.num 7)] "junk" "isActive" (JVal.num 7) (JVal.bool true)
    "bad"
    ⟨true, rfl⟩ ⟨"B", rfl, Or.inr rfl⟩ ⟨JVal.null, rfl, rfl⟩ ⟨0, rfl⟩
    ⟨"B", rfl, Or.inr rfl⟩ rfl ⟨_, rfl, rfl⟩ ⟨_, rfl, rfl⟩ ⟨_, rfl, rfl⟩
    rfl rfl rfl (by decide) (by decide) (by decide) rfl (by decide) rfl

end BotStateManager
